import Mathlib

/-!
Verification of the tiny-local-agent chat client: a shallow embedding of
the provider layer (llm_provider.py, class OllamaProvider) and of the
session/settings layer (chatbot_app.py, classes ChatApp and
ModelSettingsPanel), together with proofs settling the specification
claims about them.

Python strings are embedded as lists of characters; Python dictionaries
that carry string keys are embedded as association lists; the network
backend (the ollama client) is embedded as an explicit outcome value
passed to each operation, with an `exn` constructor standing for any
exception raised by the client call (every provider method wraps its
body in try/except, so the exception message is the only observable).
-/

namespace TinyLocalAgent

/-- Python strings, embedded as lists of characters. -/
abbrev Chars := List Char

/-! ## Python string primitives -/

/-- Boolean test that the first list is an initial segment of the second
(the leftmost-match test underlying Python substring search). -/
def leadsWith : Chars → Chars → Bool
  | [], _ => true
  | _ :: _, [] => false
  | a :: as, b :: bs => a == b && leadsWith as bs

/-- First occurrence of `sep` in `s`: returns the text strictly before the
occurrence and the text strictly after it, or `none` when `sep` does not
occur.  This is the scan underlying Python `str.split` and `in`. -/
def findFirst (sep : Chars) : Chars → Option (Chars × Chars)
  | [] => if leadsWith sep [] then some ([], []) else none
  | c :: cs =>
    if leadsWith sep (c :: cs) then some ([], (c :: cs).drop sep.length)
    else
      match findFirst sep cs with
      | none => none
      | some (a, b) => some (c :: a, b)

/-- The text before the first occurrence of `sep` (the whole text when
`sep` does not occur). -/
def cutAtFirst (sep : Chars) : Chars → Chars
  | [] => []
  | c :: cs => if leadsWith sep (c :: cs) then [] else c :: cutAtFirst sep cs

/-- The text after the first occurrence of `sep` (the whole text when
`sep` does not occur). -/
def afterFirst (sep s : Chars) : Chars :=
  match findFirst sep s with
  | some (_, b) => b
  | none => s

/-- Python `sep in s` (substring containment, for non-empty `sep`). -/
def pyIn (sep s : Chars) : Bool :=
  (findFirst sep s).isSome

/-- Python `s.split(sep)` for a non-empty separator: the segments between
consecutive non-overlapping leftmost occurrences of `sep`.  Fueled by the
length of the input, which bounds the number of occurrences. -/
def pySplitAux : Nat → Chars → Chars → List Chars
  | 0, _, s => [s]
  | fuel + 1, sep, s =>
    match findFirst sep s with
    | none => [s]
    | some (a, b) => a :: pySplitAux fuel sep b

/-- Python `s.split(sep)` for a non-empty separator. -/
def pySplit (sep s : Chars) : List Chars :=
  pySplitAux (s.length + 1) sep s

/-- Python `s.strip()`: remove leading and trailing whitespace. -/
def pyStrip (s : Chars) : Chars :=
  (((s.dropWhile Char.isWhitespace).reverse).dropWhile Char.isWhitespace).reverse

/-! ## Python dictionaries with string keys -/

/-- Python `d.get(k)`: the value at key `k`, or `None`. -/
def dictGetOpt {α : Type} (d : List (Chars × α)) (k : Chars) : Option α :=
  (d.find? (fun p => p.1 == k)).map (fun p => p.2)

/-- Python `d.get(k, default)`. -/
def dictGet {α : Type} (d : List (Chars × α)) (k : Chars) (default : α) : α :=
  (dictGetOpt d k).getD default

/-! ## JSON values and a model of Python `json.loads`

`json_loads` models the standard-library parser on the grammar fragment
exercised here: objects, arrays, strings without escape sequences,
integer numbers, `true`, `false`, `null`, with the usual JSON whitespace,
and rejection of trailing data. -/

/-- Parsed JSON values (numbers restricted to integers). -/
inductive Json where
  | null : Json
  | bool (b : Bool) : Json
  | num (n : Int) : Json
  | str (s : Chars) : Json
  | arr (elems : List Json) : Json
  | obj (fields : List (Chars × Json)) : Json

/-- JSON whitespace (space, tab, newline, carriage return). -/
def skipWs (s : Chars) : Chars :=
  s.dropWhile (fun c => c == ' ' || c == '\t' || c == '\n' || c == '\r')

/-- Numeric value of a decimal digit character. -/
def digitVal (c : Char) : Nat := c.toNat - 48

/-- Consume a run of decimal digits, accumulating their value. -/
def readDigits : Chars → Nat → Nat × Chars
  | [], acc => (acc, [])
  | c :: cs, acc =>
    if c.isDigit then readDigits cs (acc * 10 + digitVal c) else (acc, c :: cs)

/-- Scan the body of a JSON string after the opening quote: the content
up to the closing quote and the remaining input (no escape sequences). -/
def scanStr : Chars → Option (Chars × Chars)
  | [] => none
  | c :: cs =>
    if c == '"' then some ([], cs)
    else
      match scanStr cs with
      | none => none
      | some (a, r) => some (c :: a, r)

mutual

/-- Parse one JSON value, returning it with the remaining input. -/
def parseValue : Nat → Chars → Except Chars (Json × Chars)
  | 0, _ => .error "Recursion limit".data
  | fuel + 1, s =>
    match skipWs s with
    | [] => .error "Expecting value".data
    | c :: cs =>
      if c == '\x7b' then
        match skipWs cs with
        | d :: ds =>
          if d == '\x7d' then .ok (.obj [], ds)
          else
            match parseMembers fuel cs with
            | .ok (fs, r) => .ok (.obj fs, r)
            | .error e => .error e
        | [] => .error "Expecting property name".data
      else if c == '[' then
        match skipWs cs with
        | d :: ds =>
          if d == ']' then .ok (.arr [], ds)
          else
            match parseElems fuel cs with
            | .ok (vs, r) => .ok (.arr vs, r)
            | .error e => .error e
        | [] => .error "Expecting value".data
      else if c == '"' then
        match scanStr cs with
        | some (a, r) => .ok (.str a, r)
        | none => .error "Unterminated string".data
      else if c == '-' then
        match cs with
        | d :: _ =>
          if d.isDigit then
            let p := readDigits cs 0
            .ok (.num (-(p.1 : Int)), p.2)
          else .error "Expecting value".data
        | [] => .error "Expecting value".data
      else if c.isDigit then
        let p := readDigits (c :: cs) 0
        .ok (.num (p.1 : Int), p.2)
      else if leadsWith "true".data (c :: cs) then .ok (.bool true, (c :: cs).drop 4)
      else if leadsWith "false".data (c :: cs) then .ok (.bool false, (c :: cs).drop 5)
      else if leadsWith "null".data (c :: cs) then .ok (.null, (c :: cs).drop 4)
      else .error "Expecting value".data

/-- Parse the members of a JSON object after the opening brace. -/
def parseMembers : Nat → Chars → Except Chars (List (Chars × Json) × Chars)
  | 0, _ => .error "Recursion limit".data
  | fuel + 1, s =>
    match skipWs s with
    | [] => .error "Expecting property name".data
    | c :: cs =>
      if c == '"' then
        match scanStr cs with
        | none => .error "Unterminated string".data
        | some (k, r1) =>
          match skipWs r1 with
          | [] => .error "Expecting colon".data
          | c2 :: r2 =>
            if c2 == ':' then
              match parseValue fuel r2 with
              | .error e => .error e
              | .ok (v, r3) =>
                match skipWs r3 with
                | [] => .error "Unterminated object".data
                | c3 :: r4 =>
                  if c3 == ',' then
                    match parseMembers fuel r4 with
                    | .ok (fs, r5) => .ok ((k, v) :: fs, r5)
                    | .error e => .error e
                  else if c3 == '\x7d' then .ok ([(k, v)], r4)
                  else .error "Expecting comma".data
            else .error "Expecting colon".data
      else .error "Expecting property name".data

/-- Parse the elements of a JSON array after the opening bracket. -/
def parseElems : Nat → Chars → Except Chars (List Json × Chars)
  | 0, _ => .error "Recursion limit".data
  | fuel + 1, s =>
    match parseValue fuel s with
    | .error e => .error e
    | .ok (v, r) =>
      match skipWs r with
      | [] => .error "Unterminated array".data
      | c :: cs =>
        if c == ',' then
          match parseElems fuel cs with
          | .ok (vs, r2) => .ok (v :: vs, r2)
          | .error e => .error e
        else if c == ']' then .ok ([v], cs)
        else .error "Expecting comma".data

end

/-- Model of Python `json.loads`: parse one value and reject trailing
non-whitespace data. -/
def json_loads (s : Chars) : Except Chars Json :=
  match parseValue (2 * s.length + 2) s with
  | .ok (j, rest) => if skipWs rest = [] then .ok j else .error "Extra data".data
  | .error e => .error e

/-! ## The provider layer: llm_provider.py, class OllamaProvider

Each method is a pure function of its arguments and of an explicit
outcome value describing what the wrapped `ollama` client call did:
either a decoded JSON response body, or an exception (whose message is
the only observable, since every method catches all exceptions). -/

/-- A model entry as returned by the listing endpoint: a dictionary with
string fields (the relevant key, per the API shape documented in the
repository, is "model"). -/
abbrev ModelDescriptor := List (Chars × Chars)

/-- Outcome of `self.client.generate(...)`: a response dictionary with
string fields, or a raised exception. -/
inductive GenOutcome where
  | ok (response : List (Chars × Chars)) : GenOutcome
  | exn (msg : Chars) : GenOutcome

/-- Outcome of `self.client.chat(...)`: a response dictionary whose
values are themselves dictionaries (the "message" field), or a raised
exception. -/
inductive ChatOutcome where
  | ok (response : List (Chars × List (Chars × Chars))) : ChatOutcome
  | exn (msg : Chars) : ChatOutcome

/-- Outcome of `self.client.list()`: a response dictionary whose "models"
field holds the installed-model entries, or a raised exception. -/
inductive ListOutcome where
  | ok (response : List (Chars × List ModelDescriptor)) : ListOutcome
  | exn (msg : Chars) : ListOutcome

/-- `OllamaProvider.generate_text`: the client is modelled as a function
from the prompt and effective temperature to an outcome.  Returns the
response field of the backend reply, a fixed fallback when the field is
missing, and the string "Error: " followed by the exception message when
the client call raised. -/
def generate_text (client_generate : Chars → ℚ → GenOutcome)
    (self_temperature : ℚ) (prompt : Chars) (temperature : Option ℚ) : Chars :=
  let temp := temperature.getD self_temperature
  match client_generate prompt temp with
  | .ok response => dictGet response "response".data "No response from model".data
  | .exn msg => "Error: ".data ++ msg

/-- `OllamaProvider.generate_chat`: the client is modelled as a function
from the message list and effective temperature to an outcome, so the
embedding shows both arguments reaching the backend.  Returns
`response["message"]["content"]` with the source's defaults, or the
"Error: " string on an exception. -/
def generate_chat (client_chat : List (Chars × Chars) → ℚ → ChatOutcome)
    (self_temperature : ℚ) (messages : List (Chars × Chars))
    (temperature : Option ℚ) : Chars :=
  let temp := temperature.getD self_temperature
  match client_chat messages temp with
  | .ok response =>
    dictGet (dictGet response "message".data []) "content".data
      "No response from model".data
  | .exn msg => "Error: ".data ++ msg

/-- The fenced-code marker recognized first by `generate_json`. -/
def fenceJson : Chars := "```json".data

/-- A bare code fence. -/
def fenceMark : Chars := "```".data

/-- The JSON-extraction step of `OllamaProvider.generate_json`, verbatim:
`response_text.split("```json")[1].split("```")[0].strip()` when the
marker occurs, `response_text.split("```")[1].split("```")[0].strip()`
when only a bare fence occurs, and `response_text.strip()` otherwise. -/
def extract_json (response_text : Chars) : Chars :=
  if pyIn fenceJson response_text then
    pyStrip ((pySplit fenceMark ((pySplit fenceJson response_text).getD 1 [])).getD 0 [])
  else if pyIn fenceMark response_text then
    pyStrip ((pySplit fenceMark ((pySplit fenceMark response_text).getD 1 [])).getD 0 [])
  else
    pyStrip response_text

/-- The instruction `generate_json` appends to its prompt. -/
def jsonInstr : Chars := "\n\nRespond with valid JSON only.".data

/-- `OllamaProvider.generate_json`: format the prompt, call
`generate_text` on it, extract the JSON text, parse it; on a parse
failure return the error dictionary carrying the parse error and the raw
response text. -/
def generate_json (client_generate : Chars → ℚ → GenOutcome)
    (self_temperature : ℚ) (prompt : Chars) : Json :=
  let formatted_prompt := prompt ++ jsonInstr
  let response_text := generate_text client_generate self_temperature formatted_prompt none
  let json_text := extract_json response_text
  match json_loads json_text with
  | .ok j => j
  | .error e =>
    Json.obj [("error".data, Json.str ("Failed to parse JSON: ".data ++ e)),
              ("raw_text".data, Json.str response_text)]

/-- `OllamaProvider.get_available_models`: the "models" field of the
listing response, or the empty list when the client call raised (the
source prints the error and returns `[]`). -/
def get_available_models (call : ListOutcome) : List ModelDescriptor :=
  match call with
  | .ok response => dictGet response "models".data []
  | .exn _ => []

/-- The configurable provider state mutated by the settings layer. -/
structure Provider where
  host : Chars
  model_name : Option Chars
  temperature : ℚ
deriving DecidableEq

/-- `OllamaProvider.set_model`: look the requested name up in the
available models under the key "name" and either record it (returning
`true`) or leave the provider unchanged (returning `false`). -/
def set_model (p : Provider) (listing : ListOutcome) (model_name : Chars) :
    Provider × Bool :=
  let available_models := get_available_models listing
  let model_exists :=
    available_models.any (fun m => dictGetOpt m "name".data == some model_name)
  if model_exists then ({ p with model_name := some model_name }, true)
  else (p, false)

/-- The names list the repository derives from a listing
(`[model.get('model', '') for model in models]`). -/
def model_names (models : List ModelDescriptor) : List Chars :=
  models.map (fun m => dictGet m "model".data "".data)

/-- The default-model resolution in `OllamaProvider.__init__`: keep the
preferred name when it is among the listed names, otherwise fall back to
the first listed entry, and select nothing when the listing is empty. -/
def resolveDefault (preferred : Chars) (models : List ModelDescriptor) :
    Option Chars :=
  if models = [] then none
  else if (model_names models).contains preferred then some preferred
  else some (dictGet (models.headD []) "model".data "".data)

/-! ## The session controller: chatbot_app.py, class ChatApp -/

/-- A transcript entry (class `Message`). -/
structure Message where
  user_name : Chars
  text : Chars
deriving DecidableEq

/-- The observable state of the chat session: the transcript
(`chat_display.controls`, as the messages it renders), the input field
(`chat_input.value`), and the number of backend generation calls
currently outstanding (threads started by `send_message` whose
`process_message` has not yet completed).  `outstanding = 0` is the
`Idle` state; `outstanding ≥ 1` is `AwaitingResponse` (busy). -/
structure ChatState where
  controls : List Message
  chat_input : Chars
  outstanding : Nat
deriving DecidableEq

/-- `ChatApp.send_message`: strip the input; an empty result is a no-op;
otherwise append the user message, clear the input, and start a thread
that issues one backend generation call (modelled by incrementing
`outstanding`). -/
def send_message (st : ChatState) : ChatState :=
  let user_message := pyStrip st.chat_input
  if user_message = [] then st
  else
    { controls := st.controls ++ [⟨"You".data, user_message⟩],
      chat_input := [],
      outstanding := st.outstanding + 1 }

/-- Completion of `ChatApp.process_message`: the outstanding call
finishes, its response (reply text or "Error: " string) is appended as a
bot message. -/
def process_message_complete (st : ChatState) (response : Chars) : ChatState :=
  { st with controls := st.controls ++ [⟨"Bot".data, response⟩],
            outstanding := st.outstanding - 1 }

/-! ## The settings panel: chatbot_app.py, class ModelSettingsPanel -/

/-- The state read and written by `ModelSettingsPanel._handle_save`: the
provider it configures, the model dropdown value, the endpoint text
field, the temperature slider, and the panel visibility. -/
structure PanelState where
  provider : Provider
  combo_value : Option Chars
  endpoint_value : Chars
  slider_value : ℚ
  visible : Bool
deriving DecidableEq

/-- `ModelSettingsPanel._handle_save`: update the host when the stripped
endpoint differs; when a real model name is selected, run `set_model`
and return early (leaving the panel open and the temperature unsaved) if
it fails; otherwise store the slider value as the provider temperature
and close the panel. -/
def handle_save (listing : ListOutcome) (st : PanelState) : PanelState :=
  let endpoint := pyStrip st.endpoint_value
  let p0 :=
    if endpoint ≠ st.provider.host then { st.provider with host := endpoint }
    else st.provider
  match st.combo_value with
  | some mn =>
    if mn = [] ∨ mn = "No models found".data then
      { st with provider := { p0 with temperature := st.slider_value },
                visible := false }
    else
      let r := set_model p0 listing mn
      if r.2 then
        { st with provider := { r.1 with temperature := st.slider_value },
                  visible := false }
      else { st with provider := r.1 }
  | none =>
    { st with provider := { p0 with temperature := st.slider_value },
              visible := false }

/-! ## Specification-side definitions, written from the claims' words,
to be compared with the source-derived definitions above -/

/-- The assistant reply carried by a successful chat response:
`response["message"]["content"]` when both keys are present. -/
def lookupContent (response : List (Chars × List (Chars × Chars))) : Option Chars :=
  match dictGetOpt response "message".data with
  | some m => dictGetOpt m "content".data
  | none => none

/-- The extraction step as the claim describes it: when the text contains
the marker "```json", exactly the text between the first occurrence of
the marker and the next following "```" fence, whitespace-stripped;
otherwise, when the text contains "```", the text between the first and
second fence; otherwise the whole stripped text. -/
def extractClaimed (s : Chars) : Chars :=
  if pyIn fenceJson s then
    pyStrip (cutAtFirst fenceMark (afterFirst fenceJson s))
  else if pyIn fenceMark s then
    pyStrip (cutAtFirst fenceMark (afterFirst fenceMark s))
  else pyStrip s

/-- The extraction step as the code actually behaves (the amended
description): in the marker branch the text is additionally truncated at
the second occurrence of "```json" before the closing fence is sought,
because `split("```json")[1]` ends at that second occurrence. -/
def extractActual (s : Chars) : Chars :=
  if pyIn fenceJson s then
    pyStrip (cutAtFirst fenceMark (cutAtFirst fenceJson (afterFirst fenceJson s)))
  else if pyIn fenceMark s then
    pyStrip (cutAtFirst fenceMark (afterFirst fenceMark s))
  else pyStrip s

/-! ## Theorems -/

/-- C9: Submitting an empty or whitespace-only string while the session
is Idle is a no-op: the transcript is unchanged, no backend call is
issued, and the session state (the whole `ChatState`) remains as it was,
in particular Idle. -/
theorem submit_blank_is_noop (st : ChatState) (_hIdle : st.outstanding = 0)
    (hBlank : pyStrip st.chat_input = []) : send_message st = st := by
  unfold send_message
  simp [hBlank]

/-- Witness for C9 at the inputs named by the claim: the empty string and
three spaces. -/
theorem submit_blank_is_noop_witness :
    send_message ⟨[], "".data, 0⟩ = ⟨[], "".data, 0⟩ ∧
    send_message ⟨[], "   ".data, 0⟩ = ⟨[], "   ".data, 0⟩ :=
  ⟨submit_blank_is_noop ⟨[], "".data, 0⟩ rfl rfl,
   submit_blank_is_noop ⟨[], "   ".data, 0⟩ rfl rfl⟩

/-- Counterexample to C1 as stated: from the initial Idle state,
submitting "hi" reaches the busy state (one outstanding backend call),
and submitting "hello again" while that response is still awaited starts
a second concurrently outstanding backend call. -/
theorem busy_submit_starts_second_call :
    (send_message ⟨[], "hi".data, 0⟩).outstanding = 1 ∧
    (send_message
      { send_message ⟨[], "hi".data, 0⟩ with chat_input := "hello again".data
      }).outstanding = 2 := by
  decide

/-- C1 as amended: `send_message` never consults the busy state — every
submission whose stripped text is non-empty appends one user message and
starts one more backend generation call, whatever the number of calls
already outstanding; only the empty-after-strip guard rejects. -/
theorem submit_ignores_busy (st : ChatState) (h : pyStrip st.chat_input ≠ []) :
    (send_message st).outstanding = st.outstanding + 1 ∧
    (send_message st).controls = st.controls ++ [⟨"You".data, pyStrip st.chat_input⟩] := by
  unfold send_message
  simp [h]

/-- Witness for the amended C1, applied in a busy state (one call already
outstanding). -/
theorem submit_ignores_busy_witness :
    (send_message ⟨[], "go".data, 1⟩).outstanding = 1 + 1 ∧
    (send_message ⟨[], "go".data, 1⟩).controls
      = [] ++ [⟨"You".data, pyStrip "go".data⟩] :=
  submit_ignores_busy ⟨[], "go".data, 1⟩ (by decide)

/-- C3 (code bug): against a listing of the documented shape (each entry
carries its name under the key "model", as spec §6 and the comment at
chatbot_app.py line 220 both state), the name "mistral" is among the
listed names, yet `set_model` returns `False` and leaves the configured
model unchanged, because it looks the name up under the key "name". -/
theorem set_model_checks_wrong_key :
    model_names (get_available_models
        (.ok [("models".data, [[("model".data, "mistral".data)]])]))
      = ["mistral".data] ∧
    set_model ⟨"http://127.0.0.1:11434".data, some "mistral".data, 7/10⟩
        (.ok [("models".data, [[("model".data, "mistral".data)]])]) "mistral".data
      = (⟨"http://127.0.0.1:11434".data, some "mistral".data, 7/10⟩, false) :=
  ⟨rfl, rfl⟩

/-- Counterexample to C5 as stated: a transport failure and an empty
catalog produce the very same return value, the empty list, so the two
outcomes are not distinguishable by the caller. -/
theorem list_models_failure_indistinguishable :
    get_available_models (.exn "connection refused".data)
      = get_available_models (.ok [("models".data, [])]) ∧
    get_available_models (.exn "connection refused".data) = ([] : List ModelDescriptor) :=
  ⟨rfl, rfl⟩

/-- C5 as amended: `get_available_models` returns the listed models on
success and the empty list on any fetch failure (the error is only
printed), so an empty catalog and a transport failure are conflated. -/
theorem get_available_models_conflates (m : Chars) (ms : List ModelDescriptor) :
    get_available_models (.ok [("models".data, ms)]) = ms ∧
    get_available_models (.exn m) = [] :=
  ⟨rfl, rfl⟩

/-- C8: on the raw response that is exactly the fenced block
"```json\n\x7b"a":1\x7d\n```", extraction strips the fence, and
`generate_json` parses the result to the object with the single field
"a" holding 1. -/
theorem generate_json_fenced_roundtrip :
    extract_json "```json\n\x7b\"a\":1\x7d\n```".data = "\x7b\"a\":1\x7d".data ∧
    generate_json
        (fun _ _ => .ok [("response".data, "```json\n\x7b\"a\":1\x7d\n```".data)])
        (7/10) "p".data
      = Json.obj [("a".data, Json.num 1)] :=
  ⟨rfl, rfl⟩

/-- C2: `generate_chat` is total and, for every message list, temperature
and backend outcome, either the client call raised and the result is the
"Error: " string carrying the exception message, or the call succeeded
and the result is the assistant reply text from the response (with the
source's fixed fallback text when the response carries no content). -/
theorem generate_chat_never_throws (client : List (Chars × Chars) → ℚ → ChatOutcome)
    (self_temp : ℚ) (msgs : List (Chars × Chars)) (t : Option ℚ) :
    (∃ m, client msgs (t.getD self_temp) = .exn m ∧
      generate_chat client self_temp msgs t = "Error: ".data ++ m) ∨
    (∃ r c, client msgs (t.getD self_temp) = .ok r ∧ lookupContent r = some c ∧
      generate_chat client self_temp msgs t = c) ∨
    (∃ r, client msgs (t.getD self_temp) = .ok r ∧ lookupContent r = none ∧
      generate_chat client self_temp msgs t = "No response from model".data) := by
  cases h : client msgs (t.getD self_temp) with
  | exn m =>
    exact Or.inl ⟨m, rfl, by simp [generate_chat, h]⟩
  | ok r =>
    have hg : generate_chat client self_temp msgs t =
        dictGet (dictGet r "message".data []) "content".data
          "No response from model".data := by
      simp [generate_chat, h]
    cases hm : dictGetOpt r "message".data with
    | none =>
      refine Or.inr (Or.inr ⟨r, rfl, ?_, ?_⟩)
      · simp [lookupContent, hm]
      · rw [hg]; simp only [dictGet, hm, Option.getD_none]; simp [dictGetOpt]
    | some m =>
      cases hc : dictGetOpt m "content".data with
      | none =>
        refine Or.inr (Or.inr ⟨r, rfl, ?_, ?_⟩)
        · simp [lookupContent, hm, hc]
        · rw [hg]; simp only [dictGet, hm, Option.getD_some, hc, Option.getD_none]
      | some c =>
        refine Or.inr (Or.inl ⟨r, c, rfl, ?_, ?_⟩)
        · simp [lookupContent, hm, hc]
        · rw [hg]; simp only [dictGet, hm, Option.getD_some, hc]

/-- Counterexample to C4 as stated: saving with slider value 5 stores 5
as the provider temperature, which is not min(2, max(0, 5)) = 2 — no
clamping happens in the save handler. -/
theorem save_temperature_does_not_clamp :
    (handle_save (.exn "down".data)
        ⟨⟨"h".data, none, 7/10⟩, none, "h".data, 5, true⟩).provider.temperature = 5 ∧
    (5 : ℚ) ≠ min 2 (max 0 (5 : ℚ)) := by
  refine ⟨rfl, ?_⟩
  norm_num

/-- C4 as amended: the save handler stores the slider value unchanged
(no clamping and no failure mode on the temperature path); because the
input surface is a slider with range [0, 2], every value it can produce
satisfies min(2, max(0, v)) = v, so for those values the stored
temperature trivially coincides with the clamped value. -/
theorem save_temperature_stores_raw (listing : ListOutcome) (st : PanelState)
    (v : ℚ) (hc : st.combo_value = none) (h0 : 0 ≤ v) (h2 : v ≤ 2) :
    (handle_save listing { st with slider_value := v }).provider.temperature = v ∧
    min 2 (max 0 v) = v := by
  constructor
  · simp [handle_save, hc]
  · rw [max_eq_right h0, min_eq_right h2]

/-- Witness for the amended C4 at slider value 3/2. -/
theorem save_temperature_stores_raw_witness :
    (handle_save (.exn "e".data)
        { (⟨⟨"h".data, none, 7/10⟩, none, "h".data, 0, true⟩ : PanelState) with
          slider_value := (3/2 : ℚ) }).provider.temperature = (3/2 : ℚ) ∧
    min 2 (max 0 (3/2 : ℚ)) = (3/2 : ℚ) :=
  save_temperature_stores_raw (.exn "e".data) _ _ rfl (by norm_num) (by norm_num)

/-- C6: default-model resolution — when the preferred name occurs among
the listed names it is selected; when the listing is non-empty and the
preferred name does not occur, the first entry's name (in backend order)
is selected; when the listing is empty nothing is selected; and for
every non-empty listing the selected name occurs among the listed
names. -/
theorem resolveDefault_selects_available (preferred : Chars)
    (models : List ModelDescriptor) :
    (models = [] → resolveDefault preferred models = none) ∧
    (preferred ∈ model_names models →
      resolveDefault preferred models = some preferred) ∧
    (models ≠ [] → preferred ∉ model_names models →
      resolveDefault preferred models
        = some (dictGet (models.headD []) "model".data "".data)) ∧
    (models ≠ [] → ∃ n, resolveDefault preferred models = some n ∧
      n ∈ model_names models) := by
  refine ⟨?_, ?_, ?_, ?_⟩
  · intro h
    simp [resolveDefault, h]
  · intro h
    have hne : models ≠ [] := by
      rintro rfl
      simp [model_names] at h
    simp [resolveDefault, hne, List.contains, List.elem_iff, h]
  · intro hne hn
    simp [resolveDefault, hne, List.contains, List.elem_iff, hn]
  · intro hne
    by_cases hp : preferred ∈ model_names models
    · refine ⟨preferred, ?_, hp⟩
      simp [resolveDefault, hne, List.contains, List.elem_iff, hp]
    · obtain ⟨m, ms, rfl⟩ := List.exists_cons_of_ne_nil hne
      refine ⟨dictGet m "model".data "".data, ?_, ?_⟩
      · simp [resolveDefault, List.contains, List.elem_iff, hp]
      · simp [model_names]

/-- Witness for C6, applying the theorem in each of its four parts at
concrete listings. -/
theorem resolveDefault_selects_available_witness :
    resolveDefault "x".data [] = none ∧
    resolveDefault "mistral".data [[("model".data, "mistral".data)]]
      = some "mistral".data ∧
    resolveDefault "nope".data [[("model".data, "m1".data)]]
      = some (dictGet ([[("model".data, "m1".data)]].headD []) "model".data "".data) ∧
    (∃ n, resolveDefault "nope".data [[("model".data, "m1".data)]] = some n ∧
      n ∈ model_names [[("model".data, "m1".data)]]) :=
  ⟨(resolveDefault_selects_available "x".data []).1 rfl,
   (resolveDefault_selects_available "mistral".data _).2.1 (by decide),
   (resolveDefault_selects_available "nope".data _).2.2.1 (by decide) (by decide),
   (resolveDefault_selects_available "nope".data _).2.2.2 (by decide)⟩

/-- C7: whenever the content extracted from the raw model output fails to
parse as JSON, `generate_json` returns the error dictionary carrying the
parse error and the original raw text; being a total function of the
call outcome, it raises nothing to its caller. -/
theorem generate_json_parse_failure (client : Chars → ℚ → GenOutcome)
    (self_temp : ℚ) (prompt e : Chars)
    (h : json_loads (extract_json
          (generate_text client self_temp (prompt ++ jsonInstr) none)) = .error e) :
    generate_json client self_temp prompt =
      Json.obj [("error".data, Json.str ("Failed to parse JSON: ".data ++ e)),
                ("raw_text".data,
                 Json.str (generate_text client self_temp (prompt ++ jsonInstr) none))] := by
  unfold generate_json
  simp only [h]

/-- Witness for C7 on the malformed content "not json". -/
theorem generate_json_parse_failure_witness :
    json_loads (extract_json
        (generate_text (fun _ _ => .ok [("response".data, "not json".data)])
          (7/10) ("".data ++ jsonInstr) none))
      = .error "Expecting value".data ∧
    generate_json (fun _ _ => .ok [("response".data, "not json".data)]) (7/10) "".data
      = Json.obj [("error".data,
                   Json.str ("Failed to parse JSON: ".data ++ "Expecting value".data)),
                  ("raw_text".data,
                   Json.str (generate_text
                     (fun _ _ => .ok [("response".data, "not json".data)])
                     (7/10) ("".data ++ jsonInstr) none))] := by
  have h : json_loads (extract_json
      (generate_text (fun _ _ => .ok [("response".data, "not json".data)])
        (7/10) ("".data ++ jsonInstr) none)) = .error "Expecting value".data := rfl
  exact ⟨h, generate_json_parse_failure _ _ _ _ h⟩

/-! ### Lemmas relating iterated `split` indexing to first-occurrence
scans, used to settle C10 -/

/-- Transitivity of the initial-segment test. -/
theorem leadsWith_trans : ∀ (a b c : Chars), leadsWith a b = true →
    leadsWith b c = true → leadsWith a c = true
  | [], _, _, _, _ => rfl
  | _ :: _, [], _, h1, _ => by simp [leadsWith] at h1
  | _ :: _, _ :: _, [], _, h2 => by simp [leadsWith] at h2
  | _ :: xs, _ :: ys, _ :: zs, h1, h2 => by
    simp only [leadsWith, Bool.and_eq_true, beq_iff_eq] at h1 h2 ⊢
    exact ⟨h1.1.trans h2.1, leadsWith_trans xs ys zs h1.2 h2.2⟩

/-- The text before the first occurrence is an initial segment of the
text. -/
theorem cutAtFirst_leadsWith : ∀ (sep s : Chars),
    leadsWith (cutAtFirst sep s) s = true
  | _, [] => rfl
  | sep, c :: cs => by
    by_cases h : leadsWith sep (c :: cs) = true
    · simp [cutAtFirst, h, leadsWith]
    · simp only [cutAtFirst, if_neg h, leadsWith, beq_self_eq_true, Bool.true_and]
      exact cutAtFirst_leadsWith sep cs

/-- When the separator does not occur, `cutAtFirst` returns the whole
text. -/
theorem findFirst_eq_none (sep : Chars) : ∀ (s : Chars),
    findFirst sep s = none → cutAtFirst sep s = s
  | [], _ => rfl
  | c :: cs, h => by
    by_cases hl : leadsWith sep (c :: cs) = true
    · simp [findFirst, hl] at h
    · simp only [findFirst, if_neg hl] at h
      cases hf : findFirst sep cs with
      | some x => rw [hf] at h; exact absurd h (by simp)
      | none =>
        simp only [cutAtFirst, if_neg hl]
        rw [findFirst_eq_none sep cs hf]

/-- The first component returned by `findFirst` is the text before the
first occurrence. -/
theorem findFirst_eq_some_fst (sep : Chars) : ∀ (s a b : Chars),
    findFirst sep s = some (a, b) → a = cutAtFirst sep s
  | [], a, b, h => by
    by_cases hl : leadsWith sep [] = true
    · simp only [findFirst, if_pos hl, Option.some.injEq, Prod.mk.injEq] at h
      exact h.1.symm
    · simp [findFirst, hl] at h
  | c :: cs, a, b, h => by
    by_cases hl : leadsWith sep (c :: cs) = true
    · simp only [findFirst, if_pos hl, Option.some.injEq, Prod.mk.injEq] at h
      rw [← h.1]
      simp [cutAtFirst, hl]
    · simp only [findFirst, if_neg hl] at h
      cases hf : findFirst sep cs with
      | none => rw [hf] at h; exact absurd h (by simp)
      | some x =>
        obtain ⟨a0, b0⟩ := x
        rw [hf] at h
        simp only [Option.some.injEq, Prod.mk.injEq] at h
        rw [← h.1]
        simp only [cutAtFirst, if_neg hl, List.cons.injEq, true_and]
        exact findFirst_eq_some_fst sep cs a0 b0 hf

/-- A non-empty separator cannot occur in the empty text. -/
theorem findFirst_nil_of_ne (sep : Chars) (hsep : sep ≠ []) :
    findFirst sep [] = none := by
  match sep, hsep with
  | q :: qs, _ => rfl

/-- A text containing a non-empty separator is non-empty. -/
theorem ne_nil_of_findFirst_some (sep s : Chars) (x : Chars × Chars)
    (hsep : sep ≠ []) (hf : findFirst sep s = some x) : s ≠ [] := by
  rintro rfl
  rw [findFirst_nil_of_ne sep hsep] at hf
  exact absurd hf (by simp)

/-- The text before the first occurrence contains no occurrence of the
separator. -/
theorem findFirst_cutAtFirst_eq_none (sep : Chars) (hsep : sep ≠ []) :
    ∀ (s : Chars), findFirst sep (cutAtFirst sep s) = none
  | [] => by rw [(rfl : cutAtFirst sep [] = [])]; exact findFirst_nil_of_ne sep hsep
  | c :: cs => by
    by_cases hl : leadsWith sep (c :: cs) = true
    · simp only [cutAtFirst, if_pos hl]
      exact findFirst_nil_of_ne sep hsep
    · simp only [cutAtFirst, if_neg hl]
      have hnl : ¬ leadsWith sep (c :: cutAtFirst sep cs) = true := by
        intro hcontra
        have hstep : leadsWith (c :: cutAtFirst sep cs) (c :: cs) = true := by
          simp only [leadsWith, beq_self_eq_true, Bool.true_and]
          exact cutAtFirst_leadsWith sep cs
        exact hl (leadsWith_trans sep _ _ hcontra hstep)
      simp only [findFirst, if_neg hnl]
      rw [findFirst_cutAtFirst_eq_none sep hsep cs]

/-- The head of a fueled split is the text before the first occurrence. -/
theorem pySplitAux_getD_zero (sep t : Chars) :
    ∀ (fuel : Nat), 1 ≤ fuel →
      (pySplitAux fuel sep t).getD 0 [] = cutAtFirst sep t := by
  intro fuel hfuel
  obtain ⟨k, rfl⟩ : ∃ k, fuel = k + 1 := ⟨fuel - 1, by omega⟩
  simp only [pySplitAux]
  cases hf : findFirst sep t with
  | none => simp [findFirst_eq_none sep t hf]
  | some x =>
    obtain ⟨a, b⟩ := x
    simp only [List.getD_cons_zero]
    exact findFirst_eq_some_fst sep t a b hf

/-- `s.split(sep)[0]` is the text before the first occurrence of `sep`. -/
theorem pySplit_getD_zero (sep t : Chars) :
    (pySplit sep t).getD 0 [] = cutAtFirst sep t :=
  pySplitAux_getD_zero sep t _ (Nat.succ_le_succ (Nat.zero_le _))

/-- `s.split(sep)[1]`, when `sep` occurs, is the text after the first
occurrence truncated before the next occurrence. -/
theorem pySplit_getD_one (sep s a b : Chars) (hsep : sep ≠ [])
    (hf : findFirst sep s = some (a, b)) :
    (pySplit sep s).getD 1 [] = cutAtFirst sep b := by
  unfold pySplit
  have hs : s ≠ [] := ne_nil_of_findFirst_some sep s (a, b) hsep hf
  obtain ⟨n, hn⟩ : ∃ n, s.length = n + 1 := by
    cases s with
    | nil => exact absurd rfl hs
    | cons c cs => exact ⟨cs.length, rfl⟩
  rw [hn]
  simp only [pySplitAux, hf, List.getD_cons_succ]
  exact pySplitAux_getD_zero sep b (n + 1) (Nat.succ_le_succ (Nat.zero_le n))

/-- Counterexample to C10 as stated: on the text "```jsonA`````jsonB"
the code parses "A``" — the segment `split("```json")[1]` already ends at
the second occurrence of the marker, so the kept text is not the text up
to the next "```" fence, which the claim would make "A". -/
theorem extract_json_differs_from_claim :
    extract_json "```jsonA`````jsonB".data = "A``".data ∧
    extractClaimed "```jsonA`````jsonB".data = "A".data ∧
    extract_json "```jsonA`````jsonB".data ≠ extractClaimed "```jsonA`````jsonB".data := by
  refine ⟨rfl, rfl, ?_⟩
  decide

/-- C10 as amended: the extraction step is total (a function) and picks
its block deterministically — when the text contains "```json", it keeps
the text after the first occurrence of that marker, truncated at the
next occurrence of "```json" if any, then truncated before the next
"```" fence if any, whitespace-stripped; when the text contains only
"```", it keeps the text between the first and second fence (to the end
if there is no second); otherwise the whole stripped text. -/
theorem extract_json_eq_extractActual (s : Chars) :
    extract_json s = extractActual s := by
  unfold extract_json extractActual
  by_cases h1 : pyIn fenceJson s = true
  · rw [if_pos h1, if_pos h1]
    obtain ⟨⟨a, b⟩, hf⟩ : ∃ x, findFirst fenceJson s = some x := by
      unfold pyIn at h1
      exact Option.isSome_iff_exists.mp h1
    have hb : afterFirst fenceJson s = b := by simp [afterFirst, hf]
    rw [pySplit_getD_one fenceJson s a b (by decide) hf, pySplit_getD_zero, hb]
  · rw [if_neg h1, if_neg h1]
    by_cases h2 : pyIn fenceMark s = true
    · rw [if_pos h2, if_pos h2]
      obtain ⟨⟨a, b⟩, hf⟩ : ∃ x, findFirst fenceMark s = some x := by
        unfold pyIn at h2
        exact Option.isSome_iff_exists.mp h2
      have hb : afterFirst fenceMark s = b := by simp [afterFirst, hf]
      rw [pySplit_getD_one fenceMark s a b (by decide) hf, pySplit_getD_zero, hb,
          findFirst_eq_none fenceMark (cutAtFirst fenceMark b)
            (findFirst_cutAtFirst_eq_none fenceMark (by decide) b)]
    · rw [if_neg h2, if_neg h2]

end TinyLocalAgent
